import Mathlib

/-!
Shallow embedding of the `github-action-container-job` GitHub action
(JavaScript sources: `src/config.js`, `src/job.js`, `src/input.js`,
`src/utils.js`, `src/main.js`) and proofs about its behaviour.

Modelling conventions:
* JavaScript strings are `String`; an absent (`undefined`) optional input is
  the empty string, matching `core.getInput`, which returns `''` for absent
  inputs, and JS truthiness on such strings (`if (s)` iff `s ≠ ""`).
* JSON objects used as string-to-string maps (`environment-variables`,
  `secrets`) are association lists `List (String × String)` in insertion
  order, matching `Object.entries`.
* Remote Azure interaction is modelled by an explicit trace of the calls the
  code issues (`RemoteCall`) plus a `Remote` record holding the responses the
  control plane would return; `core.setOutput` / `core.setFailed` /
  `core.warning` are modelled as fields of a `RunState`.
-/

namespace ContainerJob

/-! ## Provider document model (`src/config.js`) -/

/-- An entry of the container `env` array: either `{name, value}` (plain
environment variable) or `{name, secretRef}` (reference to a job secret). -/
inductive EnvVar where
  | plain (name value : String)
  | secretRef (name ref : String)
deriving DecidableEq

/-- An entry of the job `secrets` array: either `{name, keyVaultUrl, identity}`
(key-vault reference, produced from the `secrets` input) or `{name, value}`
(literal value, produced for the registry password). -/
inductive SecretDescriptor where
  | keyVault (name keyVaultUrl identity : String)
  | literal (name value : String)
deriving DecidableEq

/-- The `name` field of a secret descriptor. -/
def SecretDescriptor.name : SecretDescriptor → String
  | .keyVault n _ _ => n
  | .literal n _ => n

/-- An entry of the `registries` array: `{server, username, passwordSecretRef}`. -/
structure Registry where
  server : String
  username : String
  passwordSecretRef : String
deriving DecidableEq

/-- JS `scheduleTriggerConfig` object. -/
structure ScheduleTriggerConfig where
  cronExpression : String
  parallelism : Nat
  replicaCompletionCount : Nat
deriving DecidableEq

/-- JS `manualTriggerConfig` object. -/
structure ManualTriggerConfig where
  replicaCompletionCount : Nat
  parallelism : Nat
deriving DecidableEq

/-- The container spec built by `buildJobConfig`.  The source stores
`Number.parseFloat(cpu)`; since no claim depends on float parsing, the `cpu`
resource is carried as its source string. -/
structure Container where
  name : String
  image : String
  cpu : String
  memory : String
  env : List EnvVar
  command : Option (List String)
deriving DecidableEq

/-- The `configuration` block of the job document. -/
structure JobConfiguration where
  triggerType : String
  replicaTimeout : Nat
  replicaRetryLimit : Nat
  scheduleTriggerConfig : Option ScheduleTriggerConfig
  manualTriggerConfig : Option ManualTriggerConfig
  secrets : List SecretDescriptor
  registries : List Registry
deriving DecidableEq

/-- JS `{type: 'UserAssigned', userAssignedIdentities: {[umi]: {}}}`. -/
structure Identity where
  type : String
  userAssignedIdentity : String
deriving DecidableEq

/-- The provider job document assembled by `buildJobConfig`. -/
structure JobDocument where
  configuration : JobConfiguration
  environmentId : String
  location : String
  workLoadProfileName : String
  template : List Container
  identity : Option Identity
deriving DecidableEq

/-- The `config` argument of `buildJobConfig` (destructured at its top). -/
structure JobSettings where
  image : String
  command : Option (List String)
  userManagedIdentity : String
  environmentVariables : List (String × String)
  secrets : List (String × String)
  cpu : String
  memory : String
  registryServer : String
  registryUsername : String
  registryPassword : String
  cronSchedule : String
deriving DecidableEq

/-- JS `key.toLowerCase().replaceAll('_', '-')` — the secret-name normalization
of `buildJobConfig`.  Lower-casing and the single-character replacement are
both character-wise, so they are modelled as one character map. -/
def normalizeSecretName (key : String) : String :=
  String.mk (key.data.map (fun c =>
    if Char.toLower c = '_' then '-' else Char.toLower c))

/-- JS `buildJobConfig(subscriptionId, resourceGroup, environmentName, location,
config)` from `src/config.js`, line by line.  The secrets loop pushes, for
each entry with a truthy value, one key-vault secret descriptor and one
`secretRef` env entry; entries with falsy (empty) values are skipped. -/
def buildJobConfig (subscriptionId resourceGroup environmentName location : String)
    (config : JobSettings) : JobDocument :=
  let envVars := config.environmentVariables.map (fun kv => EnvVar.plain kv.1 kv.2)
  let secretPairs := config.secrets.filter (fun kv => kv.2 ≠ "")
  let secretsArray := secretPairs.map (fun kv =>
    SecretDescriptor.keyVault (normalizeSecretName kv.1) kv.2 config.userManagedIdentity)
  let envVars := envVars ++ secretPairs.map (fun kv =>
    EnvVar.secretRef kv.1 (normalizeSecretName kv.1))
  let container : Container :=
    { name := "main"
      image := config.image
      cpu := config.cpu
      memory := config.memory
      env := envVars
      command := config.command }
  let registryOn :=
    config.registryServer ≠ "" ∧ config.registryUsername ≠ "" ∧ config.registryPassword ≠ ""
  let registries : List Registry :=
    if registryOn then
      [{ server := config.registryServer
         username := config.registryUsername
         passwordSecretRef := "registry-password" }]
    else []
  let secretsArray :=
    secretsArray ++
      (if registryOn then [SecretDescriptor.literal "registry-password" config.registryPassword]
       else [])
  let configuration : JobConfiguration :=
    if config.cronSchedule ≠ "" then
      { triggerType := "Schedule"
        replicaTimeout := 1800
        replicaRetryLimit := 0
        scheduleTriggerConfig := some
          { cronExpression := config.cronSchedule, parallelism := 1, replicaCompletionCount := 1 }
        manualTriggerConfig := none
        secrets := secretsArray
        registries := registries }
    else
      { triggerType := "Manual"
        replicaTimeout := 1800
        replicaRetryLimit := 0
        scheduleTriggerConfig := none
        manualTriggerConfig := some { replicaCompletionCount := 1, parallelism := 1 }
        secrets := secretsArray
        registries := registries }
  { configuration := configuration
    environmentId :=
      "/subscriptions/" ++ subscriptionId ++ "/resourceGroups/" ++ resourceGroup ++
        "/providers/Microsoft.App/managedEnvironments/" ++ environmentName
    location := location
    workLoadProfileName := "Consumption"
    template := [container]
    identity :=
      if config.userManagedIdentity ≠ "" then
        some { type := "UserAssigned", userAssignedIdentity := config.userManagedIdentity }
      else none }

/-! ### Projection lemmas for `buildJobConfig` -/

theorem buildJobConfig_registries (sid rg en loc : String) (cfg : JobSettings) :
    (buildJobConfig sid rg en loc cfg).configuration.registries =
      (if cfg.registryServer ≠ "" ∧ cfg.registryUsername ≠ "" ∧ cfg.registryPassword ≠ "" then
        [{ server := cfg.registryServer, username := cfg.registryUsername,
           passwordSecretRef := "registry-password" }]
      else []) := by
  simp only [buildJobConfig]
  split <;> rfl

theorem buildJobConfig_secrets (sid rg en loc : String) (cfg : JobSettings) :
    (buildJobConfig sid rg en loc cfg).configuration.secrets =
      (cfg.secrets.filter (fun kv => kv.2 ≠ "")).map (fun kv =>
        SecretDescriptor.keyVault (normalizeSecretName kv.1) kv.2 cfg.userManagedIdentity) ++
      (if cfg.registryServer ≠ "" ∧ cfg.registryUsername ≠ "" ∧ cfg.registryPassword ≠ "" then
        [SecretDescriptor.literal "registry-password" cfg.registryPassword]
      else []) := by
  simp only [buildJobConfig]
  split <;> rfl

theorem buildJobConfig_template (sid rg en loc : String) (cfg : JobSettings) :
    (buildJobConfig sid rg en loc cfg).template =
      [{ name := "main", image := cfg.image, cpu := cfg.cpu, memory := cfg.memory,
         env := cfg.environmentVariables.map (fun kv => EnvVar.plain kv.1 kv.2) ++
           (cfg.secrets.filter (fun kv => kv.2 ≠ "")).map (fun kv =>
             EnvVar.secretRef kv.1 (normalizeSecretName kv.1)),
         command := cfg.command }] := by
  simp only [buildJobConfig]

/-! ### Claim C5: registry block all-or-nothing -/

/-- Claim C5: the registries list of the assembled document is non-empty iff
all three of registry server, username and password are non-empty; when
non-empty it is exactly one descriptor referencing the secret named
`registry-password`, whose literal value (the password) is stored in the
secrets list; and when the server or the username is missing the document is
independent of the password value, so the password leaks nowhere. -/
theorem buildJobConfig_registry_spec (sid rg en loc : String) (cfg : JobSettings) :
    ((buildJobConfig sid rg en loc cfg).configuration.registries ≠ [] ↔
      (cfg.registryServer ≠ "" ∧ cfg.registryUsername ≠ "" ∧ cfg.registryPassword ≠ ""))
    ∧ (cfg.registryServer ≠ "" → cfg.registryUsername ≠ "" → cfg.registryPassword ≠ "" →
        (buildJobConfig sid rg en loc cfg).configuration.registries =
          [{ server := cfg.registryServer, username := cfg.registryUsername,
             passwordSecretRef := "registry-password" }]
        ∧ SecretDescriptor.literal "registry-password" cfg.registryPassword ∈
            (buildJobConfig sid rg en loc cfg).configuration.secrets)
    ∧ ((cfg.registryServer = "" ∨ cfg.registryUsername = "") →
        ∀ pw, buildJobConfig sid rg en loc { cfg with registryPassword := pw } =
          buildJobConfig sid rg en loc cfg) := by
  refine ⟨?_, ?_, ?_⟩
  · rw [buildJobConfig_registries]
    by_cases h : cfg.registryServer ≠ "" ∧ cfg.registryUsername ≠ "" ∧ cfg.registryPassword ≠ ""
    · simp [h]
    · simp [if_neg h, h]
  · intro h1 h2 h3
    rw [buildJobConfig_registries, buildJobConfig_secrets]
    refine ⟨by rw [if_pos ⟨h1, h2, h3⟩], ?_⟩
    rw [if_pos ⟨h1, h2, h3⟩]
    exact List.mem_append.mpr (Or.inr (List.mem_singleton.mpr rfl))
  · intro h pw
    simp only [buildJobConfig]
    rcases h with h | h <;> simp [h]

/-- Witness for C5 at a concrete full registry triple. -/
theorem buildJobConfig_registry_spec_witness :
    (buildJobConfig "sub" "rg" "envx" "eastus"
        { image := "img", command := none, userManagedIdentity := "",
          environmentVariables := [], secrets := [], cpu := "0.5", memory := "1Gi",
          registryServer := "ghcr.io", registryUsername := "bot",
          registryPassword := "tok", cronSchedule := "" }).configuration.registries =
      [{ server := "ghcr.io", username := "bot", passwordSecretRef := "registry-password" }]
    ∧ SecretDescriptor.literal "registry-password" "tok" ∈
        (buildJobConfig "sub" "rg" "envx" "eastus"
          { image := "img", command := none, userManagedIdentity := "",
            environmentVariables := [], secrets := [], cpu := "0.5", memory := "1Gi",
            registryServer := "ghcr.io", registryUsername := "bot",
            registryPassword := "tok", cronSchedule := "" }).configuration.secrets :=
  (buildJobConfig_registry_spec "sub" "rg" "envx" "eastus" _).2.1
    (by decide) (by decide) (by decide)

/-! ### Claim C7: empty-valued secrets are skipped -/

/-- Claim C7: a secrets-mapping entry whose value is the empty string (falsy)
contributes nothing to the assembled document: the document equals the one
assembled with the entry removed, so it produces neither a secret descriptor
nor a secret-referencing environment entry. -/
theorem buildJobConfig_skips_empty_secret (sid rg en loc : String) (cfg : JobSettings)
    (k : String) (l1 l2 : List (String × String)) (h : cfg.secrets = l1 ++ (k, "") :: l2) :
    buildJobConfig sid rg en loc cfg =
      buildJobConfig sid rg en loc { cfg with secrets := l1 ++ l2 } := by
  simp [buildJobConfig, h, List.filter_append]

/-- Settings with a single empty-valued secret entry, for the C7 witness. -/
def cfg7 : JobSettings :=
  { image := "img", command := none, userManagedIdentity := "",
    environmentVariables := [], secrets := [("EMPTY_SECRET", "")],
    cpu := "0.5", memory := "1Gi", registryServer := "",
    registryUsername := "", registryPassword := "", cronSchedule := "" }

/-- Witness for C7 at a concrete one-entry empty-valued mapping. -/
theorem buildJobConfig_skips_empty_secret_witness :
    buildJobConfig "sub" "rg" "envx" "eastus" cfg7 =
      buildJobConfig "sub" "rg" "envx" "eastus" { cfg7 with secrets := [] ++ [] } :=
  buildJobConfig_skips_empty_secret "sub" "rg" "envx" "eastus" cfg7 "EMPTY_SECRET" [] [] rfl

/-! ### Claim C10: env entry keeps the original key, secretRef the normalized name -/

/-- Claim C10: for every non-empty secrets-mapping entry `(k, v)`, the
container environment of the assembled document contains the entry
`{name := k, secretRef := normalizeSecretName k}`: the variable name is the
original unnormalized input key, and only the secret reference carries the
normalized (lower-cased, underscores-to-hyphens) name. -/
theorem buildJobConfig_env_secretRef (sid rg en loc : String) (cfg : JobSettings)
    (k v : String) (hmem : (k, v) ∈ cfg.secrets) (hv : v ≠ "") :
    EnvVar.secretRef k (normalizeSecretName k) ∈
      ((buildJobConfig sid rg en loc cfg).template.flatMap Container.env) := by
  rw [buildJobConfig_template]
  simp only [List.flatMap_cons, List.flatMap_nil, List.append_nil]
  refine List.mem_append.mpr (Or.inr ?_)
  refine List.mem_map.mpr ⟨(k, v), ?_, rfl⟩
  exact List.mem_filter.mpr ⟨hmem, by simpa using hv⟩

/-- Settings with one upper-cased, underscored secret key, for the C10 witness. -/
def cfg10 : JobSettings :=
  { image := "img", command := none, userManagedIdentity := "",
    environmentVariables := [], secrets := [("API_KEY", "https://vault/secret")],
    cpu := "0.5", memory := "1Gi", registryServer := "",
    registryUsername := "", registryPassword := "", cronSchedule := "" }

/-- Witness for C10 at a concrete secret mapping. -/
theorem buildJobConfig_env_secretRef_witness :
    EnvVar.secretRef "API_KEY" (normalizeSecretName "API_KEY") ∈
      ((buildJobConfig "sub" "rg" "envx" "eastus" cfg10).template.flatMap Container.env) :=
  buildJobConfig_env_secretRef "sub" "rg" "envx" "eastus" cfg10 "API_KEY"
    "https://vault/secret" (by decide) (by decide)

/-! ### Claim C4: normalized secret names are NOT pairwise distinct -/

/-- Settings whose two distinct secret keys collide after normalization. -/
def cfg4 : JobSettings :=
  { image := "img", command := none, userManagedIdentity := "",
    environmentVariables := [], secrets := [("FOO_BAR", "u1"), ("FOO-BAR", "u2")],
    cpu := "0.5", memory := "1Gi", registryServer := "",
    registryUsername := "", registryPassword := "", cronSchedule := "" }

/-- Counterexample to Claim C4 as stated: the two distinct input secret keys
`FOO_BAR` and `FOO-BAR` normalize to the same name `foo-bar`, and the
assembled document then contains two secret descriptors with the same name,
so the names are not pairwise distinct. -/
theorem secret_name_collision_cex :
    ("FOO_BAR" : String) ≠ "FOO-BAR"
    ∧ normalizeSecretName "FOO_BAR" = normalizeSecretName "FOO-BAR"
    ∧ ¬ (((buildJobConfig "sub" "rg" "envx" "eastus" cfg4).configuration.secrets.map
          SecretDescriptor.name).Nodup) := by
  decide

/-- Claim C4 as amended: the normalized secret names of the assembled document
are pairwise distinct provided the normalized names of the non-empty-valued
input keys are pairwise distinct and none of them is `registry-password` (a
name the assembler itself synthesizes for the registry credential); the code
performs no collision detection of its own. -/
theorem buildJobConfig_secret_names_nodup (sid rg en loc : String) (cfg : JobSettings)
    (h1 : ((cfg.secrets.filter (fun kv => kv.2 ≠ "")).map
            (fun kv => normalizeSecretName kv.1)).Nodup)
    (h2 : ∀ kv ∈ cfg.secrets, kv.2 ≠ "" → normalizeSecretName kv.1 ≠ "registry-password") :
    ((buildJobConfig sid rg en loc cfg).configuration.secrets.map
      SecretDescriptor.name).Nodup := by
  rw [buildJobConfig_secrets, List.map_append, List.map_map]
  have hcomp : (SecretDescriptor.name ∘ fun kv : String × String =>
      SecretDescriptor.keyVault (normalizeSecretName kv.1) kv.2 cfg.userManagedIdentity) =
      fun kv : String × String => normalizeSecretName kv.1 := rfl
  rw [hcomp]
  by_cases hreg : cfg.registryServer ≠ "" ∧ cfg.registryUsername ≠ "" ∧ cfg.registryPassword ≠ ""
  · rw [if_pos hreg, List.nodup_append]
    refine ⟨h1, by simp, ?_⟩
    intro a ha hb
    simp only [List.map_cons, List.map_nil, List.mem_singleton] at hb
    obtain ⟨kv, hkv, rfl⟩ := List.mem_map.mp ha
    obtain ⟨hmem, hval⟩ := List.mem_filter.mp hkv
    exact h2 kv hmem (by simpa using hval) hb
  · rw [if_neg hreg]
    simpa using h1

/-- Settings with collision-free secret keys plus a registry triple, for the
C4 witness. -/
def cfg4b : JobSettings :=
  { image := "img", command := none, userManagedIdentity := "id",
    environmentVariables := [], secrets := [("API_KEY", "u1"), ("DB_PASS", "u2")],
    cpu := "0.5", memory := "1Gi", registryServer := "ghcr.io",
    registryUsername := "bot", registryPassword := "tok", cronSchedule := "" }

/-- Witness for the amended C4 at a concrete collision-free mapping. -/
theorem buildJobConfig_secret_names_nodup_witness :
    ((buildJobConfig "sub" "rg" "envx" "eastus" cfg4b).configuration.secrets.map
      SecretDescriptor.name).Nodup :=
  buildJobConfig_secret_names_nodup "sub" "rg" "envx" "eastus" cfg4b
    (by decide) (by decide)

/-! ## Job-name generation (`src/utils.js`)

`generateJobName(prefix = 'job')` returns
`` `${prefix}-${Date.now()}-${Math.random().toString(36).substring(2, 8)}` ``.
`Math.random()` yields a double in `[0, 1)`; every such double is a dyadic
rational, modelled here as `k / 2 ^ e` with `k < 2 ^ e`.  `toString(36)`
prints `"0"` for zero and otherwise `"0."` followed by the base-36 digits of
the fraction, with no trailing zeros (the expansion of a dyadic rational in
base 36 terminates); `substring(2, 8)` then drops the leading `"0."` and keeps
at most six digit characters. -/

/-- Base-36 fraction digits of `k / 2 ^ e`, most significant first, stopping
when the remainder hits zero (hence no trailing zeros).  `fuel = e` always
suffices because each step multiplies the remainder by `36 = 2 ^ 2 * 9`. -/
def base36FracDigits : Nat → Nat → Nat → List Nat
  | 0, _, _ => []
  | _ + 1, 0, _ => []
  | fuel + 1, k, e => k * 36 / 2 ^ e :: base36FracDigits fuel (k * 36 % 2 ^ e) e

/-- The character for one base-36 digit, as produced by `Number.toString(36)`:
`0`–`9` then `a`–`z`. -/
def digitChar36 (d : Nat) : Char :=
  if d < 10 then Char.ofNat (48 + d) else Char.ofNat (87 + d)

/-- JS `(k / 2 ^ e).toString(36)` for a dyadic rational in `[0, 1)`. -/
def jsNumberToString36 (k e : Nat) : String :=
  if k = 0 then "0"
  else String.mk ('0' :: '.' :: (base36FracDigits e k e).map digitChar36)

/-- JavaScript `s.substring(a, b)` (for `a ≤ b`; out-of-range ends clamp). -/
def jsSubstring (s : String) (a b : Nat) : String :=
  String.mk ((s.data.drop a).take (b - a))

/-- JS `generateJobName` from `src/utils.js`: the prefix, the millisecond
timestamp, and the random suffix, hyphen-separated.  The `Math.random()`
outcome is the explicit dyadic rational `k / 2 ^ e`. -/
def generateJobName (pfx : String := "job") (timestampMs k e : Nat) : String :=
  pfx ++ "-" ++ toString timestampMs ++ "-" ++ jsSubstring (jsNumberToString36 k e) 2 8

theorem base36FracDigits_lt : ∀ (fuel k e : Nat), k < 2 ^ e →
    ∀ d ∈ base36FracDigits fuel k e, d < 36 := by
  intro fuel
  induction fuel with
  | zero => intro k e _ d hd; simp [base36FracDigits] at hd
  | succ f ih =>
    intro k e hk d hd
    match k with
    | 0 => simp [base36FracDigits] at hd
    | k + 1 =>
      simp only [base36FracDigits, List.mem_cons] at hd
      rcases hd with h | h
      · subst h
        have hpos : 0 < 2 ^ e := Nat.pos_pow_of_pos e (by norm_num)
        rw [Nat.div_lt_iff_lt_mul hpos]
        omega
      · exact ih _ _ (Nat.mod_lt _ (Nat.pos_pow_of_pos e (by norm_num))) _ h

theorem digitChar36_range : ∀ d < 36,
    (('0' ≤ digitChar36 d ∧ digitChar36 d ≤ '9') ∨
      ('a' ≤ digitChar36 d ∧ digitChar36 d ≤ 'z')) := by
  decide

/-! ### Claim C9: shape of the generated job name -/

/-- Counterexample to Claim C9 as stated: for the possible `Math.random()`
outcome `0.5` (`k = 1`, `e = 1`), `(0.5).toString(36)` is `"0.i"`, so
`substring(2, 8)` is the single character `"i"` and the random suffix has
length 1, not 6 — the suffix does not always match `[a-z0-9]{6}`. -/
theorem generateJobName_short_suffix_cex :
    jsNumberToString36 1 1 = "0.i"
    ∧ generateJobName "gh-job" 0 1 1 = "gh-job-0-i"
    ∧ (jsSubstring (jsNumberToString36 1 1) 2 8).length ≠ 6 := by
  decide

/-- Claim C9 as amended: for every outcome of the random source the generated
name is `prefix`, hyphen, the decimal timestamp, hyphen, and a random suffix
of AT MOST six base-36 characters (each in `[a-z0-9]`); the suffix can be
shorter than six when the random double's base-36 expansion terminates early
(e.g. length 1 for `0.5`, length 0 for `0`). -/
theorem generateJobName_suffix_spec (pfx : String) (timestampMs k e : Nat)
    (h : k < 2 ^ e) :
    generateJobName pfx timestampMs k e =
      pfx ++ "-" ++ toString timestampMs ++ "-" ++ jsSubstring (jsNumberToString36 k e) 2 8
    ∧ (jsSubstring (jsNumberToString36 k e) 2 8).length ≤ 6
    ∧ ∀ c ∈ (jsSubstring (jsNumberToString36 k e) 2 8).data,
        (('0' ≤ c ∧ c ≤ '9') ∨ ('a' ≤ c ∧ c ≤ 'z')) := by
  refine ⟨rfl, ?_, ?_⟩
  · simp only [jsSubstring, String.length]
    simp [List.length_take]
  · intro c hc
    by_cases hk0 : k = 0
    · subst hk0
      simp [jsNumberToString36, jsSubstring] at hc
    · simp only [jsNumberToString36, jsSubstring, if_neg hk0] at hc
      have hc2 : c ∈ (base36FracDigits e k e).map digitChar36 := by
        refine List.take_subset 6 _ ?_
        simpa using hc
      obtain ⟨d, hd, rfl⟩ := List.mem_map.mp hc2
      exact digitChar36_range d (base36FracDigits_lt e k e h d hd)

/-- Witness for the amended C9 at the outcome `0.25` (`k = 1`, `e = 2`). -/
theorem generateJobName_suffix_spec_witness :
    generateJobName "gh-job" 0 1 2 =
      "gh-job" ++ "-" ++ toString 0 ++ "-" ++ jsSubstring (jsNumberToString36 1 2) 2 8
    ∧ (jsSubstring (jsNumberToString36 1 2) 2 8).length ≤ 6
    ∧ ∀ c ∈ (jsSubstring (jsNumberToString36 1 2) 2 8).data,
        (('0' ≤ c ∧ c ≤ '9') ∨ ('a' ≤ c ∧ c ≤ 'z')) :=
  generateJobName_suffix_spec "gh-job" 0 1 2 (by decide)

/-! ## Execution records and polling (`src/job.js`, `pollJobExecution`) -/

/-- JS `properties.template.containers[i]` of a job execution, as read by
`main.js` (`finalExecution.properties?.template?.containers?.[0]?.exitCode`). -/
structure ExecContainer where
  exitCode : Option Int
deriving DecidableEq

/-- JS `properties.template` of a job execution. -/
structure ExecTemplate where
  containers : List ExecContainer
deriving DecidableEq

/-- JS `properties` of a job execution. -/
structure ExecutionProperties where
  status : Option String
  template : Option ExecTemplate
deriving DecidableEq

/-- A job execution object as returned by `client.jobExecution` /
`client.jobs.beginStartAndWait`.  `pollJobExecution` reads the top-level
`status` (`execution?.status`); `main.js` reads `properties?.status` and the
container exit code under `properties` — the two access paths are kept
distinct exactly as in the source. -/
structure ExecutionRecord where
  name : String
  status : Option String
  properties : Option ExecutionProperties
deriving DecidableEq

/-- The status `main.js` reads from the final execution:
`finalExecution.properties?.status`. -/
def finalStatus (e : ExecutionRecord) : Option String :=
  e.properties.bind (fun p => p.status)

/-- The exit code `main.js` reads from the final execution:
`finalExecution.properties?.template?.containers?.[0]?.exitCode || 0`
(a missing link in the optional chain, like `0` itself, yields `0`). -/
def reportedExitCode (e : ExecutionRecord) : Int :=
  ((((e.properties.bind (fun p => p.template)).map (fun t => t.containers)).bind
    (fun cs => cs.head?)).bind (fun c => c.exitCode)).getD 0

/-- One iteration's outcome of `client.jobExecution(...)` inside the poll
loop's `try`: either the fetch threw (caught, logged, loop continues) or it
returned an execution record. -/
inductive FetchResult where
  | fetchError (msg : String)
  | fetched (e : ExecutionRecord)
deriving DecidableEq

/-- The terminal-status test of the poll loop:
`status === 'Succeeded' || status === 'Failed'` on `execution?.status`. -/
def isTerminalStatus (s : Option String) : Bool :=
  s == some "Succeeded" || s == some "Failed"

/-- Whether a fetch outcome ends the poll loop. -/
def isTerminalFetch : FetchResult → Bool
  | .fetchError _ => false
  | .fetched e => isTerminalStatus e.status

/-- How the poll loop ends. -/
inductive PollOutcome where
  | done (e : ExecutionRecord)
  | timedOut
  | noMoreObservations
deriving DecidableEq

/-- JavaScript `elapsed > timeoutMs` where `timeoutMs = timeout * 1000` may be
`NaN` (modelled as `none`): every comparison against `NaN` is false, so a
`NaN` timeout never fires. -/
def jsGtNaN (elapsed : Nat) (timeoutMs : Option Int) : Bool :=
  match timeoutMs with
  | none => false
  | some t => decide ((elapsed : Int) > t)

/-- The `while (true)` body of `pollJobExecution`, one recursive step per
iteration over the (finite) list of fetch outcomes the control plane will
produce.  Time is idealized: iteration `i` starts at elapsed time
`10000 * i` ms (each iteration costs exactly the fixed 10-second
`pollInterval` sleep, fetches being instantaneous).  Returns the outcome and
the number of status fetches issued.  If the observation list is exhausted
before the loop ends the model returns `noMoreObservations` (the real loop
would simply keep polling). -/
def pollLoop (timeoutMs : Option Int) : Nat → List FetchResult → PollOutcome × Nat
  | i, [] =>
    if jsGtNaN (10000 * i) timeoutMs then (.timedOut, 0) else (.noMoreObservations, 0)
  | i, r :: rest =>
    if jsGtNaN (10000 * i) timeoutMs then (.timedOut, 0)
    else
      match r with
      | .fetched e =>
        if isTerminalStatus e.status then (.done e, 1)
        else ((pollLoop timeoutMs (i + 1) rest).1, (pollLoop timeoutMs (i + 1) rest).2 + 1)
      | .fetchError _ =>
        ((pollLoop timeoutMs (i + 1) rest).1, (pollLoop timeoutMs (i + 1) rest).2 + 1)

/-- JS `pollJobExecution(client, resourceGroup, jobName, executionName, timeout)`
from `src/job.js`, abstracted over the sequence of fetch outcomes:
`timeoutMs = timeout * 1000`, iteration counter starts at 0. -/
def pollJobExecution (timeoutSec : Option Int) (observations : List FetchResult) :
    PollOutcome × Nat :=
  pollLoop (timeoutSec.map (fun t => t * 1000)) 0 observations

theorem jsGtNaN_iff (τ i : Nat) :
    jsGtNaN (10000 * i) (some ((τ : Int) * 1000)) = true ↔ τ / 10 < i := by
  simp only [jsGtNaN, decide_eq_true_eq]
  rw [Nat.div_lt_iff_lt_mul (by norm_num : 0 < 10)]
  omega

theorem pollLoop_done_terminal (T : Option Int) :
    ∀ (obs : List FetchResult) (i : Nat) (e : ExecutionRecord),
      (pollLoop T i obs).1 = .done e → isTerminalStatus e.status = true := by
  intro obs
  induction obs with
  | nil =>
    intro i e h
    simp only [pollLoop] at h
    split at h <;> simp_all
  | cons r rest ih =>
    intro i e h
    simp only [pollLoop] at h
    split at h
    · simp_all
    · cases r with
      | fetchError m =>
        dsimp only at h
        exact ih (i + 1) e h
      | fetched e2 =>
        dsimp only at h
        split at h
        · rename_i hterm
          dsimp only at h
          cases h
          exact hterm
        · dsimp only at h
          exact ih (i + 1) e h

theorem pollLoop_timedOut_iff (τ : Nat) :
    ∀ (obs : List FetchResult) (i : Nat),
      ((pollLoop (some ((τ : Int) * 1000)) i obs).1 = PollOutcome.timedOut ↔
        (τ / 10 + 1 - i ≤ obs.length ∧
          ∀ r ∈ obs.take (τ / 10 + 1 - i), isTerminalFetch r = false)) := by
  intro obs
  induction obs with
  | nil =>
    intro i
    simp only [pollLoop]
    by_cases h : τ / 10 < i
    · rw [if_pos ((jsGtNaN_iff τ i).mpr h)]
      simp
      omega
    · rw [if_neg (by simp [jsGtNaN_iff]; omega)]
      simp
      omega
  | cons r rest ih =>
    intro i
    simp only [pollLoop]
    by_cases h : τ / 10 < i
    · rw [if_pos ((jsGtNaN_iff τ i).mpr h)]
      have h0 : τ / 10 + 1 - i = 0 := by omega
      simp [h0]
    · rw [if_neg (by simp [jsGtNaN_iff]; omega)]
      have hsucc : τ / 10 + 1 - i = (τ / 10 + 1 - (i + 1)) + 1 := by omega
      cases r with
      | fetchError m =>
        dsimp only
        rw [ih (i + 1), hsucc]
        simp only [List.take_succ_cons, List.length_cons, List.mem_cons]
        constructor
        · rintro ⟨hl, hall⟩
          refine ⟨by omega, ?_⟩
          rintro x (rfl | hx)
          · rfl
          · exact hall x hx
        · rintro ⟨hl, hall⟩
          exact ⟨by omega, fun x hx => hall x (Or.inr hx)⟩
      | fetched e =>
        dsimp only
        by_cases hterm : isTerminalStatus e.status = true
        · rw [if_pos hterm, hsucc]
          simp only [List.take_succ_cons, List.length_cons, List.mem_cons]
          constructor
          · intro hc
            exact absurd hc (by simp)
          · rintro ⟨-, hall⟩
            have := hall (FetchResult.fetched e) (Or.inl rfl)
            simp [isTerminalFetch, hterm] at this
        · rw [if_neg hterm]
          dsimp only
          rw [ih (i + 1), hsucc]
          simp only [List.take_succ_cons, List.length_cons, List.mem_cons]
          constructor
          · rintro ⟨hl, hall⟩
            refine ⟨by omega, ?_⟩
            rintro x (rfl | hx)
            · simpa [isTerminalFetch] using hterm
            · exact hall x hx
          · rintro ⟨hl, hall⟩
            exact ⟨by omega, fun x hx => hall x (Or.inr hx)⟩

/-! ### Claim C6: poll returns only on terminal status, times out exactly on
budget exhaustion, and survives fetch errors -/

/-- Claim C6: for every timeout budget and every sequence of status fetches,
(1) the poll returns an execution only when that execution's fetched status is
`Succeeded` or `Failed`; (2) it raises the timeout error exactly when the
elapsed wall-clock time (one fixed 10-second interval per iteration) exceeds
the budget before a terminal status — i.e. none of the fetches scheduled
within the budget is terminal (and enough observations exist to reach the
deadline); (3) a fetch error is non-terminal: the loop continues with the
next 10-second iteration, one more fetch on the counter. -/
theorem pollJobExecution_spec (τ : Nat) (obs : List FetchResult) :
    (∀ e n, pollJobExecution (some (τ : Int)) obs = (PollOutcome.done e, n) →
        isTerminalStatus e.status = true)
    ∧ ((pollJobExecution (some (τ : Int)) obs).1 = PollOutcome.timedOut ↔
        (τ / 10 + 1 ≤ obs.length ∧
          ∀ r ∈ obs.take (τ / 10 + 1), isTerminalFetch r = false))
    ∧ (∀ msg rest, obs = FetchResult.fetchError msg :: rest →
        pollJobExecution (some (τ : Int)) obs =
          ((pollLoop (some ((τ : Int) * 1000)) 1 rest).1,
           (pollLoop (some ((τ : Int) * 1000)) 1 rest).2 + 1)) := by
  refine ⟨?_, ?_, ?_⟩
  · intro e n h
    exact pollLoop_done_terminal _ obs 0 e (congrArg Prod.fst h)
  · have := pollLoop_timedOut_iff τ obs 0
    simpa [pollJobExecution] using this
  · rintro msg rest rfl
    simp only [pollJobExecution, Option.map_some, pollLoop]
    rw [if_neg (by simp [jsGtNaN])]
    norm_num

/-- Fetch observations for the C6 witness: one transient error, one
non-terminal status, then a terminal `Succeeded` record. -/
def obs6 : List FetchResult :=
  [FetchResult.fetchError "transient",
   FetchResult.fetched { name := "exec-1", status := some "Running", properties := none },
   FetchResult.fetched { name := "exec-1", status := some "Succeeded", properties := none }]

/-- Witness for C6: at a 30-second budget over `obs6` the poll returns the
terminal record after three fetches and does not time out. -/
theorem pollJobExecution_spec_witness :
    isTerminalStatus (ExecutionRecord.status
      { name := "exec-1", status := some "Succeeded", properties := none }) = true
    ∧ ¬ ((pollJobExecution (some (30 : Int)) obs6).1 = PollOutcome.timedOut) := by
  refine ⟨(pollJobExecution_spec 30 obs6).1
    { name := "exec-1", status := some "Succeeded", properties := none } 3 (by decide), ?_⟩
  intro hc
  have h := (pollJobExecution_spec 30 obs6).2.1.mp hc
  revert h
  decide

/-! ## Input reading (`src/input.js`, `src/utils.js`)

The input source (`core.getInput` plus its `process.env INPUT_*` fallback —
both read the same injectively renamed environment entries) is modelled as a
single association list from input name to string value; an absent input is
an absent key, read as `""`.  `JSON.parse` is a platform builtin, passed in
as the collaborator function `jsonParse`. -/

/-- JavaScript `s.trim()`. -/
def jsTrim (s : String) : String :=
  String.mk (((s.data.dropWhile Char.isWhitespace).reverse.dropWhile
    Char.isWhitespace).reverse)

/-- Token accumulator for splitting on runs of whitespace
(`s.split(/\s+/)` on an already-trimmed string yields no empty tokens). -/
def splitWsAux : List Char → List Char → List String
  | [], acc => if acc.isEmpty then [] else [String.mk acc.reverse]
  | c :: rest, acc =>
    if c.isWhitespace then
      if acc.isEmpty then splitWsAux rest []
      else String.mk acc.reverse :: splitWsAux rest []
    else splitWsAux rest (c :: acc)

/-- JS `parseCommand` from `src/utils.js`: `undefined` for empty or
whitespace-only input, otherwise `commandString.trim().split(/\s+/)`. -/
def parseCommand (commandString : String) : Option (List String) :=
  if jsTrim commandString = "" then none
  else some (splitWsAux (jsTrim commandString).data [])

/-- JS `Number.parseInt(s, 10)`: skip leading whitespace, optional sign, then
the maximal run of decimal digits; `none` models `NaN` (no digits). -/
def jsParseIntDec (s : String) : Option Int :=
  let cs := s.data.dropWhile Char.isWhitespace
  let signed : Int × List Char :=
    match cs with
    | '-' :: r => (-1, r)
    | '+' :: r => (1, r)
    | r => (1, r)
  let digits := signed.2.takeWhile Char.isDigit
  if digits.isEmpty then none
  else some (signed.1 * (digits.foldl (fun a c => a * 10 + (c.toNat - 48)) 0 : Nat))

/-- JS `getInput(name, options)` from `src/input.js`: read the value (empty
string when absent), and throw iff the input is required and empty. -/
def getInput (env : List (String × String)) (nm : String) (required : Bool) :
    Except String String :=
  let val := (env.lookup nm).getD ""
  if required ∧ val = "" then .error ("Input required and not supplied: " ++ nm)
  else .ok val

/-- JS `parseJsonInput(inputName)` from `src/input.js`: empty or whitespace-only
input yields `{}`; otherwise defer to `JSON.parse` (the `jsonParse`
collaborator), wrapping its failure message. -/
def parseJsonInput (env : List (String × String))
    (jsonParse : String → Except String (List (String × String)))
    (nm : String) : Except String (List (String × String)) := do
  let input ← getInput env nm false
  if jsTrim input = "" then
    pure []
  else
    match jsonParse input with
    | .ok o => pure o
    | .error m => throw ("Failed to parse " ++ nm ++ ": " ++ m)

/-- The record returned by `getInputs` (`src/input.js`). -/
structure Inputs where
  subscriptionId : String
  resourceGroup : String
  environmentName : String
  jobName : String
  image : String
  command : Option (List String)
  userManagedIdentity : String
  cronSchedule : String
  cpu : String
  memory : String
  timeout : Option Int
  registryServer : String
  registryUsername : String
  registryPassword : String
  dryRun : Bool
  logAnalyticsWorkspaceId : String
  manualExecution : Bool
  onlyDeleteJob : Bool
  environmentVariables : List (String × String)
  secrets : List (String × String)
deriving DecidableEq

/-- JS `getInputs()` from `src/input.js`, line by line.  Note that only
`subscription-id`, `resource-group` and `environment-name` are read with
`required: true`; `image` is read with `required: false`. -/
def getInputs (env : List (String × String))
    (jsonParse : String → Except String (List (String × String))) :
    Except String Inputs := do
  let subscriptionId ← getInput env "subscription-id" true
  let resourceGroup ← getInput env "resource-group" true
  let environmentName ← getInput env "environment-name" true
  let jobName ← getInput env "job-name" false
  let image ← getInput env "image" false
  let commandString ← getInput env "command" false
  let userManagedIdentity ← getInput env "user-managed-identity" false
  let cronSchedule ← getInput env "cron-schedule" false
  let cpuRaw ← getInput env "cpu" false
  let memoryRaw ← getInput env "memory" false
  let timeoutRaw ← getInput env "timeout" false
  let registryServer ← getInput env "registry-server" false
  let registryUsername ← getInput env "registry-username" false
  let registryPassword ← getInput env "registry-password" false
  let dryRunRaw ← getInput env "dry-run" false
  let logAnalyticsWorkspaceId ← getInput env "log-analytics-workspace-id" false
  let manualRaw ← getInput env "manual-execution" false
  let onlyDeleteRaw ← getInput env "only-delete-job" false
  let environmentVariables ← parseJsonInput env jsonParse "environment-variables"
  let secrets ← parseJsonInput env jsonParse "secrets"
  pure
    { subscriptionId := subscriptionId
      resourceGroup := resourceGroup
      environmentName := environmentName
      jobName := jobName
      image := image
      command := parseCommand commandString
      userManagedIdentity := userManagedIdentity
      cronSchedule := cronSchedule
      cpu := if cpuRaw = "" then "0.5" else cpuRaw
      memory := if memoryRaw = "" then "1Gi" else memoryRaw
      timeout := jsParseIntDec (if timeoutRaw = "" then "1800" else timeoutRaw)
      registryServer := registryServer
      registryUsername := registryUsername
      registryPassword := registryPassword
      dryRun := String.mk (dryRunRaw.data.map Char.toLower) = "true"
      logAnalyticsWorkspaceId := logAnalyticsWorkspaceId
      manualExecution := String.mk (manualRaw.data.map Char.toLower) = "true"
      onlyDeleteJob := String.mk (onlyDeleteRaw.data.map Char.toLower) = "true"
      environmentVariables := environmentVariables
      secrets := secrets }

/-! ## Lifecycle operations and orchestrator (`src/job.js`, `src/main.js`)

Remote interaction is recorded as an ordered trace of `RemoteCall`s; the
`Remote` record carries the responses the control plane returns.  The
`ContainerAppsAPIClient` constructor is a local object construction, not a
remote call.  `core.info` logging is a side channel and is not modelled;
outputs, warnings and the `setFailed` message are `RunState` fields. -/

/-- One remote provider call, in issue order. -/
inductive RemoteCall where
  | envGet (resourceGroup environmentName : String)
  | createOrUpdate (resourceGroup jobName : String) (doc : JobDocument)
  | startExec (resourceGroup jobName : String)
  | execGet (resourceGroup jobName executionName : String)
  | deleteCall (resourceGroup jobName : String)
  | logQuery (workspaceId jobName : String)
deriving DecidableEq

/-- Observable effects of a run: the remote-call trace, the
`core.setOutput` pairs, the `core.warning` messages and the `core.setFailed`
message (if any), each in order of occurrence. -/
structure RunState where
  calls : List RemoteCall
  outputs : List (String × String)
  warnings : List String
  failed : Option String
deriving DecidableEq

/-- The state at the start of a run. -/
def initState : RunState :=
  { calls := [], outputs := [], warnings := [], failed := none }

/-- The responses the control plane returns during one run. -/
structure Remote where
  envLocation : Except String String
  createResult : Except String Unit
  startResult : Except String ExecutionRecord
  pollResults : List FetchResult
  deleteError : Option String

/-- JS `normalizeAzureLocation` from `src/utils.js`:
`'eastus'` for a falsy input, else lower-cased with all whitespace removed
(`replaceAll(/\s+/g, '')`). -/
def normalizeAzureLocation (location : String) : String :=
  if location = "" then "eastus"
  else String.mk ((location.data.map Char.toLower).filter (fun c => !c.isWhitespace))

/-- JS `deleteJob(client, resourceGroup, jobName)` from `src/job.js`: issues the
remote delete and swallows any failure into a warning — it never throws. -/
def deleteJob (remote : Remote) (resourceGroup jobName : String) (st : RunState) :
    RunState :=
  let st1 := { st with calls := st.calls ++ [.deleteCall resourceGroup jobName] }
  match remote.deleteError with
  | none => st1
  | some m => { st1 with warnings := st1.warnings ++ ["Failed to delete job: " ++ m] }

/-- JS `createJob(client, resourceGroup, environmentName, jobName, config)` from
`src/job.js`: reads the environment's location (falling back to `eastus` with
a warning on failure), builds the document with `buildJobConfig`, and submits
it; a submit failure is rethrown as `Failed to create job: ...`. -/
def createJob (remote : Remote) (subscriptionId resourceGroup environmentName jobName : String)
    (config : JobSettings) (st : RunState) : RunState × Except String Unit :=
  let st1 := { st with calls := st.calls ++ [.envGet resourceGroup environmentName] }
  let locSt : String × RunState :=
    match remote.envLocation with
    | .ok loc =>
      let n := normalizeAzureLocation loc
      (if n = "" then "eastus" else n, st1)
    | .error m =>
      ("eastus",
       { st1 with warnings := st1.warnings ++
          ["Could not get environment location, using default: " ++ m] })
  let doc := buildJobConfig subscriptionId resourceGroup environmentName locSt.1 config
  let st2 := { locSt.2 with calls := locSt.2.calls ++ [.createOrUpdate resourceGroup jobName doc] }
  match remote.createResult with
  | .ok _ => (st2, .ok ())
  | .error m => (st2, .error ("Failed to create job: " ++ m))

/-- JS `startJobExecution(client, resourceGroup, jobName)` from `src/job.js`. -/
def startJobExecution (remote : Remote) (resourceGroup jobName : String) (st : RunState) :
    RunState × Except String ExecutionRecord :=
  let st1 := { st with calls := st.calls ++ [.startExec resourceGroup jobName] }
  match remote.startResult with
  | .ok e => (st1, .ok e)
  | .error m => (st1, .error ("Failed to start job execution: " ++ m))

/-- Decimal rendering of the raw `timeout` value for the timeout message
(`NaN` for a non-numeric input). -/
def jsNumToString : Option Int → String
  | some n => toString n
  | none => "NaN"

/-- JS `pollJobExecution` as invoked by the orchestrator: the poll outcome from
`pollJobExecution` plus one `execGet` trace entry per status fetch issued. -/
def pollWithTrace (remote : Remote) (resourceGroup jobName executionName : String)
    (timeoutSec : Option Int) (st : RunState) : RunState × Except String ExecutionRecord :=
  let r := pollJobExecution timeoutSec remote.pollResults
  let st1 := { st with calls :=
    st.calls ++ List.replicate r.2 (.execGet resourceGroup jobName executionName) }
  match r.1 with
  | .done e => (st1, .ok e)
  | .timedOut =>
    (st1, .error ("Job execution timed out after " ++ jsNumToString timeoutSec ++ " seconds"))
  | .noMoreObservations => (st1, .error "status observations exhausted")

/-- JS `dumpJobLogs(workspaceId, jobName)` from `src/utils.js`: a no-op when the
workspace id is empty, otherwise one best-effort log-store query; every
failure mode is absorbed, so it never throws. -/
def dumpJobLogs (workspaceId jobName : String) (st : RunState) : RunState :=
  if jsTrim workspaceId = "" then st
  else { st with calls := st.calls ++ [.logQuery workspaceId jobName] }

/-- JS `inputs.jobName || generateJobName('gh-job')` — `generatedName` stands
for the value `generateJobName` would produce this run. -/
def resolveJobName (inp : Inputs) (generatedName : String) : String :=
  if inp.jobName = "" then generatedName else inp.jobName

/-- The `config` object `main.js` passes to `createJob`. -/
def settingsOf (inp : Inputs) : JobSettings :=
  { image := inp.image
    command := inp.command
    userManagedIdentity := inp.userManagedIdentity
    environmentVariables := inp.environmentVariables
    secrets := inp.secrets
    cpu := inp.cpu
    memory := inp.memory
    registryServer := inp.registryServer
    registryUsername := inp.registryUsername
    registryPassword := inp.registryPassword
    cronSchedule := inp.cronSchedule }

/-- The `try` block of `run()` in `src/main.js` after input reading and
client construction, returning the state and the thrown error, if any.
Two source slips are mirrored faithfully: `main.js` passes `dryRun` as an
extra trailing argument to both `deleteJob` (which declares three
parameters) and `createJob` (which declares five), so the flag is ignored by
both callees and the remote calls are issued regardless of dry-run; the
`dryRun` early return only happens after `createJob`, skipping just
start/poll/logs/delete. -/
def runTry (inp : Inputs) (jobName : String) (remote : Remote) (st : RunState) :
    RunState × Option String :=
  if inp.onlyDeleteJob then
    (deleteJob remote inp.resourceGroup jobName st, none)
  else
    match createJob remote inp.subscriptionId inp.resourceGroup inp.environmentName jobName
        (settingsOf inp) st with
    | (st1, .error e) => (st1, some e)
    | (st1, .ok _) =>
      let st2 := { st1 with outputs := st1.outputs ++ [("job-name", jobName)] }
      if inp.cronSchedule ≠ "" ∨ inp.manualExecution then (st2, none)
      else if inp.dryRun then (st2, none)
      else
        match startJobExecution remote inp.resourceGroup jobName st2 with
        | (st3, .error e) => (st3, some e)
        | (st3, .ok exec) =>
          let st4 := { st3 with outputs := st3.outputs ++ [("execution-name", exec.name)] }
          match pollWithTrace remote inp.resourceGroup jobName exec.name inp.timeout st4 with
          | (st5, .error e) => (st5, some e)
          | (st5, .ok finalExec) =>
            let st6 := dumpJobLogs inp.logAnalyticsWorkspaceId jobName st5
            let st7 := deleteJob remote inp.resourceGroup jobName st6
            if finalStatus finalExec = some "Failed" ∨ reportedExitCode finalExec ≠ 0 then
              ({ st7 with failed := some ("Job execution failed with exit code: " ++
                  toString (reportedExitCode finalExec)) }, none)
            else (st7, none)

/-- JS `run()` from `src/main.js`.  `inputs` is the result of `getInputs()` (an
input-reading error reaches the `catch` with `client` still null, so no
cleanup is attempted); in the `.ok` branch every throw happens after the
client is constructed, and the `catch` block attempts the best-effort cleanup
delete exactly when `client && resourceGroup && jobName && !cronSchedule`,
then surfaces the original error through `core.setFailed`. -/
def run (inputs : Except String Inputs) (generatedName : String) (remote : Remote) :
    RunState :=
  match inputs with
  | .error e => { initState with failed := some e }
  | .ok inp =>
    let jobName := resolveJobName inp generatedName
    let p := runTry inp jobName remote initState
    match p.2 with
    | none => p.1
    | some e =>
      let st :=
        if inp.resourceGroup ≠ "" ∧ jobName ≠ "" ∧ inp.cronSchedule = "" then
          deleteJob remote inp.resourceGroup jobName p.1
        else p.1
      { st with failed := some e }

/-! ### Claim C1: dry-run still issues remote calls (code bug) -/

/-- A standard-mode dry-run input set (`dry-run = true`, no cron, no
manual-execution, not delete-only). -/
def dryStdInputs : Inputs :=
  { subscriptionId := "sub", resourceGroup := "rg", environmentName := "envx",
    jobName := "jobx", image := "img", command := none, userManagedIdentity := "",
    cronSchedule := "", cpu := "0.5", memory := "1Gi", timeout := some 1800,
    registryServer := "", registryUsername := "", registryPassword := "",
    dryRun := true, logAnalyticsWorkspaceId := "", manualExecution := false,
    onlyDeleteJob := false, environmentVariables := [], secrets := [] }

/-- The same inputs in delete-only mode (`only-delete-job = true`,
`dry-run = true`). -/
def dryDelInputs : Inputs :=
  { dryStdInputs with onlyDeleteJob := true }

/-- Control-plane responses for the C1 run. -/
def remote1 : Remote :=
  { envLocation := .ok "eastus", createResult := .ok (),
    startResult := .error "unreached", pollResults := [], deleteError := none }

/-- Claim C1 is violated by the code: with `dry-run = true`, a delete-only
run still issues the remote `jobs.beginDeleteAndWait` call (and sets no
output at all, not even `job-name`), and a standard run still issues the
remote `managedEnvironments.get` and `jobs.beginCreateOrUpdateAndWait`
calls — `main.js` passes `dryRun` as an extra argument that `deleteJob` and
`createJob` do not declare, so the flag is dropped.  The remote-call trace of
a dry run is therefore not empty, contradicting "no remote provider call of
any kind". -/
theorem dryRun_remote_calls_bug :
    (run (.ok dryDelInputs) "gh-job-0-aaaaaa" remote1).calls =
      [RemoteCall.deleteCall "rg" "jobx"]
    ∧ (run (.ok dryDelInputs) "gh-job-0-aaaaaa" remote1).outputs = []
    ∧ (run (.ok dryStdInputs) "gh-job-0-aaaaaa" remote1).calls =
        [RemoteCall.envGet "rg" "envx",
         RemoteCall.createOrUpdate "rg" "jobx"
           (buildJobConfig "sub" "rg" "envx" "eastus" (settingsOf dryStdInputs))]
    ∧ (run (.ok dryStdInputs) "gh-job-0-aaaaaa" remote1).calls ≠ [] := by
  decide

/-! ### Claim C8: a missing image is not a fatal input error (code bug) -/

/-- An input environment with the three `required: true` identifiers present
and no `image` (and `only-delete-job` unset, i.e. not a delete-only run). -/
def env8 : List (String × String) :=
  [("subscription-id", "sub"), ("resource-group", "rg"), ("environment-name", "envx")]

/-- The `JSON.parse` collaborator for the C8 run (never consulted: both JSON
inputs are absent). -/
def jsonParseStub : String → Except String (List (String × String)) :=
  fun _ => .ok []

/-- Control-plane responses for the C8 run. -/
def remote8 : Remote :=
  { envLocation := .error "auth", createResult := .error "invalid image",
    startResult := .error "unreached", pollResults := [], deleteError := none }

/-- Claim C8 is violated by the code: `getInputs` reads `image` with
`required: false` and performs no further check, so with `image` absent and
`only-delete-job` false it returns successfully (with `image = ""`) instead
of raising a fatal input error, and the run then proceeds to issue remote
calls. -/
theorem missing_image_not_fatal_bug :
    (getInputs env8 jsonParseStub).isOk = true
    ∧ ((getInputs env8 jsonParseStub).toOption.map Inputs.image) = some ""
    ∧ ((getInputs env8 jsonParseStub).toOption.map Inputs.onlyDeleteJob) = some false
    ∧ (run (getInputs env8 jsonParseStub) "gh-job-1-abcdef" remote8).calls ≠ [] := by
  decide

/-! ### Claim C2: cleanup and error surfacing on an uncaught error -/

/-- Claim C2: when the `try` body throws after the client is constructed (in
the model, every throw of `runTry` is post-construction), the catch block
surfaces the original error message as the run's failure reason; with no cron
schedule (and the resource group and resolved job name non-empty, which holds
for every real run) it first invokes exactly one best-effort cleanup delete,
whose own failure is downgraded to a warning and never replaces the failure
reason; with a cron schedule the cleanup delete is skipped. -/
theorem run_cleanup_on_error (inp : Inputs) (gen : String) (remote : Remote) (e : String)
    (h : (runTry inp (resolveJobName inp gen) remote initState).2 = some e) :
    (run (.ok inp) gen remote).failed = some e
    ∧ (inp.resourceGroup ≠ "" → resolveJobName inp gen ≠ "" → inp.cronSchedule = "" →
        (run (.ok inp) gen remote).calls =
          (runTry inp (resolveJobName inp gen) remote initState).1.calls ++
            [RemoteCall.deleteCall inp.resourceGroup (resolveJobName inp gen)]
        ∧ (∀ m, remote.deleteError = some m →
            (run (.ok inp) gen remote).warnings =
              (runTry inp (resolveJobName inp gen) remote initState).1.warnings ++
                ["Failed to delete job: " ++ m]))
    ∧ (inp.cronSchedule ≠ "" →
        (run (.ok inp) gen remote).calls =
          (runTry inp (resolveJobName inp gen) remote initState).1.calls
        ∧ (run (.ok inp) gen remote).warnings =
          (runTry inp (resolveJobName inp gen) remote initState).1.warnings) := by
  refine ⟨?_, ?_, ?_⟩
  · simp only [run, h]
  · intro h1 h2 h3
    simp only [run, h]
    rw [if_pos ⟨h1, h2, h3⟩]
    cases hde : remote.deleteError with
    | none =>
      refine ⟨by simp [deleteJob, hde], ?_⟩
      intro m hm
      simp [hde] at hm
    | some m0 =>
      refine ⟨by simp [deleteJob, hde], ?_⟩
      intro m hm
      injection hm with hm0
      subst hm0
      simp [deleteJob, hde]
  · intro hcron
    simp only [run, h]
    rw [if_neg (fun hcon => hcron hcon.2.2)]
    exact ⟨rfl, rfl⟩

/-- Inputs for the C2 witness (standard mode, job name `j2`). -/
def inp2 : Inputs :=
  { subscriptionId := "sub", resourceGroup := "rg2", environmentName := "envx",
    jobName := "j2", image := "img", command := none, userManagedIdentity := "",
    cronSchedule := "", cpu := "0.5", memory := "1Gi", timeout := some 1800,
    registryServer := "", registryUsername := "", registryPassword := "",
    dryRun := false, logAnalyticsWorkspaceId := "", manualExecution := false,
    onlyDeleteJob := false, environmentVariables := [], secrets := [] }

/-- Control plane for the C2 witness: job creation fails, and the cleanup
delete itself also fails. -/
def remote2 : Remote :=
  { envLocation := .ok "eastus", createResult := .error "boom",
    startResult := .error "unreached", pollResults := [], deleteError := some "gone" }

/-- Witness for C2: the failed create surfaces as the failure reason, one
cleanup delete is issued, and its failure becomes a warning. -/
theorem run_cleanup_on_error_witness :
    (run (.ok inp2) "g2" remote2).failed = some "Failed to create job: boom"
    ∧ (run (.ok inp2) "g2" remote2).calls =
        (runTry inp2 (resolveJobName inp2 "g2") remote2 initState).1.calls ++
          [RemoteCall.deleteCall "rg2" "j2"]
    ∧ (run (.ok inp2) "g2" remote2).warnings =
        (runTry inp2 (resolveJobName inp2 "g2") remote2 initState).1.warnings ++
          ["Failed to delete job: " ++ "gone"] := by
  have h := run_cleanup_on_error inp2 "g2" remote2 "Failed to create job: boom" (by decide)
  exact ⟨h.1, (h.2.1 (by decide) (by decide) rfl).1,
    (h.2.1 (by decide) (by decide) rfl).2 "gone" rfl⟩

/-! ### Claim C3: failed execution still deletes the job and keeps outputs -/

/-- Claim C3: in a standard-mode run (not delete-only, no cron, no
manual-execution, no dry-run) whose poll ends with an execution whose
reported status is `Failed` or whose reported container exit code is
non-zero, the run fails with the exit-code message, the job delete was still
invoked, and both the `job-name` and `execution-name` outputs were set
before the failure was raised. -/
theorem run_failed_execution_outcome (inp : Inputs) (gen : String) (remote : Remote)
    (exec fin : ExecutionRecord) (n : Nat)
    (hdel : inp.onlyDeleteJob = false) (hcron : inp.cronSchedule = "")
    (hman : inp.manualExecution = false) (hdry : inp.dryRun = false)
    (hcreate : remote.createResult = .ok ())
    (hstart : remote.startResult = .ok exec)
    (hpoll : pollJobExecution inp.timeout remote.pollResults = (.done fin, n))
    (hfail : finalStatus fin = some "Failed" ∨ reportedExitCode fin ≠ 0) :
    (run (.ok inp) gen remote).failed =
        some ("Job execution failed with exit code: " ++ toString (reportedExitCode fin))
    ∧ ("job-name", resolveJobName inp gen) ∈ (run (.ok inp) gen remote).outputs
    ∧ ("execution-name", exec.name) ∈ (run (.ok inp) gen remote).outputs
    ∧ RemoteCall.deleteCall inp.resourceGroup (resolveJobName inp gen) ∈
        (run (.ok inp) gen remote).calls := by
  cases hloc : remote.envLocation
  all_goals by_cases hws : jsTrim inp.logAnalyticsWorkspaceId = ""
  all_goals cases hde : remote.deleteError
  all_goals
    simp only [run, runTry, createJob, startJobExecution, pollWithTrace, dumpJobLogs,
      deleteJob, hdel, hcron, hman, hdry, hloc, hcreate, hstart, hpoll, hde, hws,
      Bool.false_eq_true, if_false, ne_eq, not_true_eq_false, or_self, ite_false,
      ite_true, if_true, reduceIte]
  all_goals
    simp only [if_neg (by simp [hcron, hman] : ¬(¬inp.cronSchedule = "" ∨ inp.manualExecution = true)),
      if_neg (by simp [hdry] : ¬inp.dryRun = true), if_pos hfail]
  all_goals
    refine ⟨by simp, by simp, by simp, by simp⟩

/-- Inputs for the C3 witness. -/
def inp3 : Inputs :=
  { subscriptionId := "sub", resourceGroup := "rg3", environmentName := "envx",
    jobName := "j3", image := "img", command := none, userManagedIdentity := "",
    cronSchedule := "", cpu := "0.5", memory := "1Gi", timeout := some 1800,
    registryServer := "", registryUsername := "", registryPassword := "",
    dryRun := false, logAnalyticsWorkspaceId := "", manualExecution := false,
    onlyDeleteJob := false, environmentVariables := [], secrets := [] }

/-- The started execution for the C3 witness. -/
def exec3 : ExecutionRecord :=
  { name := "j3-exec-1", status := some "Running", properties := none }

/-- The final polled execution for the C3 witness: status `Failed`, container
exit code 1. -/
def fin3 : ExecutionRecord :=
  { name := "j3-exec-1", status := some "Failed",
    properties := some
      { status := some "Failed",
        template := some { containers := [{ exitCode := some 1 }] } } }

/-- Control plane for the C3 witness. -/
def remote3 : Remote :=
  { envLocation := .ok "East US", createResult := .ok (),
    startResult := .ok exec3, pollResults := [.fetched fin3], deleteError := none }

/-- Witness for C3 at a concrete failed execution. -/
theorem run_failed_execution_outcome_witness :
    (run (.ok inp3) "g3" remote3).failed =
        some ("Job execution failed with exit code: " ++ toString (reportedExitCode fin3))
    ∧ ("job-name", resolveJobName inp3 "g3") ∈ (run (.ok inp3) "g3" remote3).outputs
    ∧ ("execution-name", exec3.name) ∈ (run (.ok inp3) "g3" remote3).outputs
    ∧ RemoteCall.deleteCall inp3.resourceGroup (resolveJobName inp3 "g3") ∈
        (run (.ok inp3) "g3" remote3).calls :=
  run_failed_execution_outcome inp3 "g3" remote3 exec3 fin3 1
    rfl rfl rfl rfl rfl rfl (by decide) (Or.inl rfl)

end ContainerJob
